import Mathlib

/-!
Verification of the event-phase resolution engine of the XR Awards site
(the date-checker utility module).

Shallow embedding conventions:
* JavaScript `Date` values are modelled by their millisecond timestamps as
  integers (`Int`).  `Date.getTime()` is the identity on this model.
* A milestone field of the event record, after the parse step
  `eventDetails.field ? new Date(eventDetails.field) : null`, is one of
  three things: `null` (field missing or empty), an Invalid Date (field
  present but unparseable, time value NaN), or a valid Date.  This is the
  inductive type `DateVal` below.
* JavaScript relational comparison between `Date` objects coerces both
  sides with `valueOf`; any comparison involving NaN is `false`.  The
  helpers `dLt`, `dLe`, `dGt`, `dGe` reproduce this: they return `false`
  whenever the milestone side is absent or invalid.
* JavaScript truthiness of the parsed binding (`nominationsOpen && ...`)
  is `DateVal.truthy`: `null` is falsy, every `Date` object (valid or
  invalid) is truthy.
* `Math.ceil(a / b)` on exact integer inputs with positive divisor is
  `ceilDivPos a b` (for the magnitudes involved the double-precision
  division rounds to the same ceiling).
* The source computes `now`, `today` and `currentTime` from two `new
  Date()` calls in the same invocation; the model takes one instant `now`
  for both, which is the intent of the spec signature
  `resolve(milestones, now)`.
* The source function fetches the active event record itself; the model
  takes it as the `Option EventDetails` argument.
* The debug snapshot (`debugInfo`) applies `toISOString` to every
  non-null parsed date.  `toISOString` on an Invalid Date throws a
  RangeError, so the whole resolver throws as soon as some present field
  is unparseable; this is modelled by the `Except String` result and the
  `hasInvalidDate` test placed where the snapshot is built, before the
  branch chain.  The textual content of the snapshot is debug metadata
  and is not part of the modelled output record.
-/

/-- One parsed milestone field: `null`, Invalid Date (NaN), or a valid
instant with its millisecond timestamp. -/
inductive DateVal : Type
  | absent : DateVal
  | invalid : DateVal
  | valid : Int → DateVal
deriving DecidableEq

namespace DateVal

/-- JavaScript truthiness of the parsed binding: only `null` is falsy;
an Invalid Date object is truthy. -/
def truthy : DateVal → Bool
  | absent => false
  | invalid => true
  | valid _ => true

/-- Whether the field is an Invalid Date (present but unparseable). -/
def isInvalid : DateVal → Bool
  | invalid => true
  | _ => false

/-- The time value of a date known (from the guards) to be valid.
Guards of the branch chain only let a branch run when every date the
branch reads compared successfully, hence was valid; the default value
for the other constructors is never reached from a taken branch. -/
def val : DateVal → Int
  | valid t => t
  | _ => 0

end DateVal

/-- `now < d` as JavaScript evaluates it: false when `d` is absent or NaN. -/
def dLt (now : Int) (d : DateVal) : Bool :=
  match d with
  | .valid t => now < t
  | _ => false

/-- `now <= d` as JavaScript evaluates it: false when `d` is absent or NaN. -/
def dLe (now : Int) (d : DateVal) : Bool :=
  match d with
  | .valid t => now ≤ t
  | _ => false

/-- `now > d` as JavaScript evaluates it: false when `d` is absent or NaN. -/
def dGt (now : Int) (d : DateVal) : Bool :=
  match d with
  | .valid t => t < now
  | _ => false

/-- `now >= d` as JavaScript evaluates it: false when `d` is absent or NaN. -/
def dGe (now : Int) (d : DateVal) : Bool :=
  match d with
  | .valid t => t ≤ now
  | _ => false

def msPerHour : Int := 1000 * 60 * 60

def msPerDay : Int := 1000 * 60 * 60 * 24

/-- `Math.ceil (a / b)` for a positive integer divisor, on exact
integer arithmetic: the negated floor division of the negation. -/
def ceilDivPos (a b : Int) : Int := -((-a).fdiv b)

/-- The part of the `event_details` row that the phase engine reads.
The descriptive columns (id, event_name, location, organizer and the
timestamps of the row itself) are inert for the phase logic and omitted;
`event_year` is kept because the post-ceremony CTA builds its link from
it.  The six milestone columns are the parsed `DateVal` fields. -/
structure EventDetails : Type where
  event_year : Int
  nominations_open : DateVal := .absent
  nominations_close : DateVal := .absent
  finalists_announced : DateVal := .absent
  judging_period_start : DateVal := .absent
  judging_period_end : DateVal := .absent
  awards_ceremony : DateVal := .absent
  nomination_portal_url : Option String := none
  tickets_portal_url : Option String := none
deriving DecidableEq

/-- The CTA button record `{text, href, variant}`. -/
structure CTAButton : Type where
  text : String
  href : String
  variant : String
deriving DecidableEq

/-- The resolver output `EventPhase`.  The `debugInfo` field of the
source record is diagnostic metadata and is not modelled. -/
structure EventPhase : Type where
  phase : String
  daysUntilNext : Int
  nextMilestone : String
  ctaButton : CTAButton
  statusMessage : String
  isUrgent : Bool
deriving DecidableEq

/-- Substring test on character lists: does the second list contain the
first as a contiguous block starting at its head? -/
def charsPrefix : List Char → List Char → Bool
  | [], _ => true
  | _ :: _, [] => false
  | a :: as, b :: bs => a == b && charsPrefix as bs

/-- Substring test on character lists: does the second list contain the
first as a contiguous block anywhere? -/
def charsHas (pat : List Char) : List Char → Bool
  | [] => pat.isEmpty
  | s@(_ :: t) => charsPrefix pat s || charsHas pat t

/-- `s.includes(pat)` of JavaScript strings. -/
def strContains (s pat : String) : Bool := charsHas pat.toList s.toList

/-- Truncation of `now` to midnight UTC: the model of
`new Date(Date.UTC(now.getFullYear(), now.getMonth(), now.getDate()))`
for a clock running in UTC, which is flooring to the UTC day. -/
def todayUTC (now : Int) : Int := (now.fdiv msPerDay) * msPerDay

/-- `daysBetween(date1, date2) = Math.ceil(|date2 - date1| / msPerDay)`. -/
def daysBetween (date1 date2 : Int) : Int := ceilDivPos |date2 - date1| msPerDay

/-- The `{days, message}` pair returned by `getTimeUntilMessage`. -/
structure TimeInfo : Type where
  days : Int
  message : String
deriving DecidableEq

/-- `getTimeUntilMessage(targetDate, currentTime)` of the source: the
hour-or-day countdown used by the nominations-closed branch. -/
def getTimeUntilMessage (targetDate currentTime : Int) : TimeInfo :=
  let diffTime := targetDate - currentTime
  let diffHours := ceilDivPos diffTime msPerHour
  let diffDays := ceilDivPos diffTime msPerDay
  if diffTime ≤ 0 then
    { days := 0, message := "Today" }
  else if diffHours < 24 then
    { days := 0,
      message := "in " ++ toString diffHours ++ " hour" ++
        (if diffHours = 1 then "" else "s") }
  else
    { days := diffDays,
      message := "in " ++ toString diffDays ++ " day" ++
        (if diffDays = 1 then "" else "s") }

/-- Civil date (year, month, day) of a day count from 1970-01-01,
proleptic Gregorian calendar (the standard days-to-civil algorithm). -/
def civilFromDays (z0 : Int) : Int × Int × Int :=
  let z := z0 + 719468
  let era := z.fdiv 146097
  let doe := z - era * 146097
  let yoe := (doe - doe.fdiv 1460 + doe.fdiv 36524 - doe.fdiv 146096).fdiv 365
  let y := yoe + era * 400
  let doy := doe - (365 * yoe + yoe.fdiv 4 - yoe.fdiv 100)
  let mp := (5 * doy + 2).fdiv 153
  let d := doy - (153 * mp + 2).fdiv 5 + 1
  let m := mp + (if mp < 10 then 3 else -9)
  (y + (if m ≤ 2 then 1 else 0), m, d)

def monthName (m : Int) : String :=
  if m = 1 then "January" else if m = 2 then "February"
  else if m = 3 then "March" else if m = 4 then "April"
  else if m = 5 then "May" else if m = 6 then "June"
  else if m = 7 then "July" else if m = 8 then "August"
  else if m = 9 then "September" else if m = 10 then "October"
  else if m = 11 then "November" else "December"

def pad2 (d : Int) : String :=
  if d < 10 then "0" ++ toString d else toString d

/-- `formatDate`: `toLocaleDateString(en-GB, day 2-digit, month long,
year numeric)` of a valid date under a UTC clock, e.g. `01 January 2025`. -/
def formatDate (t : Int) : String :=
  let c := civilFromDays (t.fdiv msPerDay)
  pad2 c.2.2 ++ " " ++ monthName c.2.1 ++ " " ++ toString c.1

/-- English plural suffix `${n !== 1 ? 's' : ''}`. -/
def plural (n : Int) : String := if n = 1 then "" else "s"

/-- Condition of the pre-nominations branch:
`nominationsOpen && currentTime < nominationsOpen`. -/
def fires1 (e : EventDetails) (now : Int) : Bool :=
  e.nominations_open.truthy && dLt now e.nominations_open

/-- Condition of the nominations-open branch:
`nominationsOpen && nominationsClose && currentTime >= nominationsOpen
&& currentTime <= nominationsClose`. -/
def fires2 (e : EventDetails) (now : Int) : Bool :=
  e.nominations_open.truthy && e.nominations_close.truthy &&
    dGe now e.nominations_open && dLe now e.nominations_close

/-- Condition of the nominations-closed branch:
`nominationsClose && finalistsAnnounced && currentTime > nominationsClose
&& currentTime < finalistsAnnounced`. -/
def fires3 (e : EventDetails) (now : Int) : Bool :=
  e.nominations_close.truthy && e.finalists_announced.truthy &&
    dGt now e.nominations_close && dLt now e.finalists_announced

/-- Condition of the finalists-announced branch:
`finalistsAnnounced && judgingStart && currentTime >= finalistsAnnounced
&& currentTime < judgingStart`. -/
def fires4 (e : EventDetails) (now : Int) : Bool :=
  e.finalists_announced.truthy && e.judging_period_start.truthy &&
    dGe now e.finalists_announced && dLt now e.judging_period_start

/-- Condition of the judging-period branch:
`judgingStart && judgingEnd && currentTime >= judgingStart
&& currentTime <= judgingEnd`. -/
def fires5 (e : EventDetails) (now : Int) : Bool :=
  e.judging_period_start.truthy && e.judging_period_end.truthy &&
    dGe now e.judging_period_start && dLe now e.judging_period_end

/-- Condition of the post-judging pre-ceremony branch:
`judgingEnd && ceremony && currentTime > judgingEnd
&& currentTime < ceremony`. -/
def fires6 (e : EventDetails) (now : Int) : Bool :=
  e.judging_period_end.truthy && e.awards_ceremony.truthy &&
    dGt now e.judging_period_end && dLt now e.awards_ceremony

/-- Condition of the post-ceremony branch:
`ceremony && currentTime > ceremony`. -/
def fires7 (e : EventDetails) (now : Int) : Bool :=
  e.awards_ceremony.truthy && dGt now e.awards_ceremony

/-- Whether some present milestone field is an Invalid Date.  The debug
snapshot calls `toISOString` on every non-null parsed date before the
branch chain runs, and `toISOString` throws a RangeError on an Invalid
Date, so this test decides whether the resolver throws. -/
def hasInvalidDate (e : EventDetails) : Bool :=
  e.nominations_open.isInvalid || e.nominations_close.isInvalid ||
    e.finalists_announced.isInvalid || e.judging_period_start.isInvalid ||
    e.judging_period_end.isInvalid || e.awards_ceremony.isInvalid

/-- The fallback returned when no active event record exists. -/
def noEventFallback : EventPhase :=
  { phase := "pre-nominations"
    daysUntilNext := 0
    nextMilestone := "Event details coming soon"
    ctaButton := { text := "Register Interest", href := "/register-interest/", variant := "primary" }
    statusMessage := "Event details are being finalized"
    isUrgent := false }

/-- The default fallback returned when no branch of the chain matches
(written out separately in the source, with the same visible fields as
the no-record fallback). -/
def defaultFallback : EventPhase :=
  { phase := "pre-nominations"
    daysUntilNext := 0
    nextMilestone := "Event details coming soon"
    ctaButton := { text := "Register Interest", href := "/register-interest/", variant := "primary" }
    statusMessage := "Event details are being finalized"
    isUrgent := false }

def fallbackNominationURL : String :=
  "https://app.aixr.org/e/20a6e09d-7e86-488d-8436-1cd162d0f5df"

def fallbackTicketsURL : String :=
  "https://events.unitedxr.eu/2025?utm_source=AIXR&utm_medium=XR+Awards+Website&utm_campaign=link"

/-- `getEventPhase` of the source, with the milestone record passed in
and `now` injected.  The `Except` layer records the RangeError that the
debug snapshot raises when a present milestone is unparseable; on the
no-record path the snapshot is never built, so that path cannot throw. -/
def getEventPhase (eventDetails : Option EventDetails) (now : Int) : Except String EventPhase :=
  match eventDetails with
  | none => .ok noEventFallback
  | some e =>
    if hasInvalidDate e then .error "RangeError: Invalid time value"
    else
      let today := todayUTC now
      if fires1 e now then
        let daysUntil := daysBetween today e.nominations_open.val
        .ok { phase := "pre-nominations"
              daysUntilNext := daysUntil
              nextMilestone := "Nominations open " ++ formatDate e.nominations_open.val
              ctaButton := { text := "Register Interest", href := "/register-interest/", variant := "primary" }
              statusMessage := "Nominations open in " ++ toString daysUntil ++ " day" ++ plural daysUntil
              isUrgent := decide (daysUntil ≤ 7) }
      else if fires2 e now then
        let daysUntil := daysBetween today e.nominations_close.val
        .ok { phase := "nominations-open"
              daysUntilNext := daysUntil
              nextMilestone := "Nominations close " ++ formatDate e.nominations_close.val
              ctaButton := { text := "Nominate Now", href := e.nomination_portal_url.getD fallbackNominationURL, variant := "primary" }
              statusMessage := "Nominations close in " ++ toString daysUntil ++ " day" ++ plural daysUntil
              isUrgent := decide (daysUntil ≤ 7) }
      else if fires3 e now then
        let timeInfo := getTimeUntilMessage e.finalists_announced.val now
        .ok { phase := "nominations-closed"
              daysUntilNext := timeInfo.days
              nextMilestone := "Finalists announced " ++ formatDate e.finalists_announced.val
              ctaButton := { text := "Secure Tickets", href := e.tickets_portal_url.getD fallbackTicketsURL, variant := "primary" }
              statusMessage := "Finalists announced " ++ timeInfo.message
              isUrgent := decide (timeInfo.days ≤ 1) || strContains timeInfo.message "hour" }
      else if fires4 e now then
        let daysUntil := daysBetween today e.judging_period_start.val
        .ok { phase := "finalists-announced"
              daysUntilNext := daysUntil
              nextMilestone := "Judging begins " ++ formatDate e.judging_period_start.val
              ctaButton := { text := "Secure Tickets", href := e.tickets_portal_url.getD fallbackTicketsURL, variant := "primary" }
              statusMessage := "Judging begins in " ++ toString daysUntil ++ " day" ++ plural daysUntil
              isUrgent := false }
      else if fires5 e now then
        let daysUntil := daysBetween today e.judging_period_end.val
        .ok { phase := "judging-period"
              daysUntilNext := daysUntil
              nextMilestone := "Judging ends " ++ formatDate e.judging_period_end.val
              ctaButton := { text := "Secure Tickets", href := e.tickets_portal_url.getD fallbackTicketsURL, variant := "primary" }
              statusMessage := "Judging in progress - " ++ toString daysUntil ++ " day" ++ plural daysUntil ++ " remaining"
              isUrgent := false }
      else if fires6 e now then
        let daysUntil := daysBetween today e.awards_ceremony.val
        .ok { phase := "finalists-announced"
              daysUntilNext := daysUntil
              nextMilestone := "Awards ceremony " ++ formatDate e.awards_ceremony.val
              ctaButton := { text := "Secure Tickets", href := e.tickets_portal_url.getD fallbackTicketsURL, variant := "primary" }
              statusMessage := "Awards ceremony in " ++ toString daysUntil ++ " day" ++ plural daysUntil
              isUrgent := decide (daysUntil ≤ 7) }
      else if fires7 e now then
        .ok { phase := "post-ceremony"
              daysUntilNext := 0
              nextMilestone := "Event completed"
              ctaButton := { text := "View Winners", href := "/winners-and-finalists-" ++ toString e.event_year ++ "/", variant := "primary" }
              statusMessage := "Event completed - view the winners"
              isUrgent := false }
      else
        .ok defaultFallback

/-- The four CTA display contexts. -/
inductive CTAContext : Type
  | header | hero | footer | travel
deriving DecidableEq

/-- The pure core of `getCTAButton(context)`: the source resolves the
phase itself and then applies this switch to the resolved record. -/
def getCTAButton (eventPhase : EventPhase) (context : CTAContext) : CTAButton :=
  match context with
  | .header => eventPhase.ctaButton
  | .hero =>
    if eventPhase.phase = "nominations-open" then
      { eventPhase.ctaButton with text := "Submit Your Nomination" }
    else eventPhase.ctaButton
  | .footer =>
    if eventPhase.phase = "post-ceremony" then
      { text := "Register Interest Now", href := "/register-interest/", variant := "primary" }
    else eventPhase.ctaButton
  | .travel =>
    if eventPhase.phase ≠ "post-ceremony" then
      { text := "Secure Tickets", href := eventPhase.ctaButton.href, variant := "primary" }
    else eventPhase.ctaButton

/-- The `{days, message, isUrgent}` triple of `getCountdownInfo`. -/
structure CountdownInfo : Type where
  days : Int
  message : String
  isUrgent : Bool
deriving DecidableEq

/-- The pure core of `getCountdownInfo`: the source resolves the phase
itself and then applies this projection to the resolved record. -/
def getCountdownInfo (eventPhase : EventPhase) : Option CountdownInfo :=
  if eventPhase.daysUntilNext = 0 then none
  else some { days := eventPhase.daysUntilNext
              message := eventPhase.nextMilestone
              isUrgent := eventPhase.isUrgent }

/-- Pairwise order constraint between two milestone fields: whenever
both are valid instants, the first is not later than the second. -/
def vleB (a b : DateVal) : Bool :=
  match a, b with
  | .valid x, .valid y => x ≤ y
  | _, _ => true

/-- The (unenforced) data invariant of the spec: the six instants, where
present, are non-decreasing in the canonical order.  Stated pairwise so
that it also binds records with absent intermediate milestones. -/
def milestonesOrdered (e : EventDetails) : Bool :=
  vleB e.nominations_open e.nominations_close &&
  vleB e.nominations_open e.finalists_announced &&
  vleB e.nominations_open e.judging_period_start &&
  vleB e.nominations_open e.judging_period_end &&
  vleB e.nominations_open e.awards_ceremony &&
  vleB e.nominations_close e.finalists_announced &&
  vleB e.nominations_close e.judging_period_start &&
  vleB e.nominations_close e.judging_period_end &&
  vleB e.nominations_close e.awards_ceremony &&
  vleB e.finalists_announced e.judging_period_start &&
  vleB e.finalists_announced e.judging_period_end &&
  vleB e.finalists_announced e.awards_ceremony &&
  vleB e.judging_period_start e.judging_period_end &&
  vleB e.judging_period_start e.awards_ceremony &&
  vleB e.judging_period_end e.awards_ceremony

/-! Arithmetic characterization of the ceiling division used by the
countdown computations. -/

theorem ceilDivPos_le_iff {d b k : Int} (hb : 0 < b) :
    ceilDivPos d b ≤ k ↔ d ≤ k * b := by
  unfold ceilDivPos
  rw [Int.fdiv_eq_ediv _ hb.le, neg_le, Int.le_ediv_iff_mul_le hb, neg_mul,
    neg_le_neg_iff]

theorem le_ceilDivPos_iff {d b k : Int} (hb : 0 < b) :
    k ≤ ceilDivPos d b ↔ (k - 1) * b < d := by
  unfold ceilDivPos
  rw [Int.fdiv_eq_ediv _ hb.le, le_neg, ← Int.lt_add_one_iff,
    Int.ediv_lt_iff_lt_mul hb]
  have hk : (-k + 1) * b = -((k - 1) * b) := by ring
  rw [hk, neg_lt_neg_iff]

/-- Claim C1: totality of the resolver.  For every milestone record (any
combination of absent and valid instants, including no record at all)
and every instant `now`, the resolver returns a defined `PhaseResult`
(no thrown error) whose phase tag is one of the six defined tags. -/
theorem getEventPhase_total (m : Option EventDetails) (now : Int)
    (hval : ∀ e, m = some e → hasInvalidDate e = false) :
    ∃ r, getEventPhase m now = .ok r ∧
      (r.phase = "pre-nominations" ∨ r.phase = "nominations-open" ∨
       r.phase = "nominations-closed" ∨ r.phase = "finalists-announced" ∨
       r.phase = "judging-period" ∨ r.phase = "post-ceremony") := by
  cases m with
  | none => exact ⟨noEventFallback, rfl, Or.inl rfl⟩
  | some e =>
    have h : hasInvalidDate e = false := hval e rfl
    unfold getEventPhase
    simp only [h, Bool.false_eq_true, if_false]
    repeat' split
    all_goals exact ⟨_, rfl, by simp [defaultFallback]⟩

/-- Witness for C1: the resolver applied to the empty milestone source. -/
theorem getEventPhase_total_witness :
    (∀ e, (none : Option EventDetails) = some e → hasInvalidDate e = false) ∧
    (∃ r, getEventPhase none 0 = .ok r ∧
      (r.phase = "pre-nominations" ∨ r.phase = "nominations-open" ∨
       r.phase = "nominations-closed" ∨ r.phase = "finalists-announced" ∨
       r.phase = "judging-period" ∨ r.phase = "post-ceremony")) := by
  refine ⟨?_, getEventPhase_total none 0 ?_⟩ <;> intro e h <;> cases h

/-- Counterexample to claim C2 as stated: a gap of 23 hours and one
millisecond is strictly under 24 hours, yet the resolver reports a
day-based message and `daysUntilNext = 1`, because the source switches
to days as soon as the hour ceiling reaches 24, which happens already
for gaps above 23 hours. -/
theorem hour_boundary_cex :
    (0 : Int) < 82800002 - 1 ∧
    (82800002 : Int) - 1 < 24 * msPerHour ∧
    getEventPhase
        (some { event_year := 2025, nominations_close := .valid 0,
                finalists_announced := .valid 82800002 }) 1 = .ok
      { phase := "nominations-closed"
        daysUntilNext := 1
        nextMilestone := "Finalists announced 01 January 1970"
        ctaButton := { text := "Secure Tickets", href := fallbackTicketsURL, variant := "primary" }
        statusMessage := "Finalists announced in 1 day"
        isUrgent := true } :=
  ⟨by decide, by decide, by rfl⟩

/-- Claim C2 (amended): in the nominations-closed phase the countdown
compares the full, non-truncated `now` against `finalistsAnnounced`.
If the target has passed, the message is `Today` with days 0; if the
gap is positive and at most 23 hours (equivalently, the hour ceiling is
below 24), the message is `in N hour(s)` with N the hour ceiling and
days 0; if the gap exceeds 23 hours, the message is `in N day(s)` with
N the day ceiling of the full timestamp difference and
`daysUntilNext = N`. -/
theorem nominationsClosed_countdown (e : EventDetails) (now c f : Int)
    (hinv : hasInvalidDate e = false)
    (hc : e.nominations_close = .valid c)
    (hf : e.finalists_announced = .valid f)
    (hcn : c < now) (hnf : now < f)
    (h1 : fires1 e now = false) :
    getEventPhase (some e) now = .ok
      { phase := "nominations-closed"
        daysUntilNext := (getTimeUntilMessage f now).days
        nextMilestone := "Finalists announced " ++ formatDate f
        ctaButton := { text := "Secure Tickets", href := e.tickets_portal_url.getD fallbackTicketsURL, variant := "primary" }
        statusMessage := "Finalists announced " ++ (getTimeUntilMessage f now).message
        isUrgent := decide ((getTimeUntilMessage f now).days ≤ 1) ||
          strContains (getTimeUntilMessage f now).message "hour" } ∧
    (f - now ≤ 0 → getTimeUntilMessage f now = { days := 0, message := "Today" }) ∧
    (0 < f - now → f - now ≤ 23 * msPerHour →
      getTimeUntilMessage f now =
        { days := 0
          message := "in " ++ toString (ceilDivPos (f - now) msPerHour) ++ " hour" ++
            plural (ceilDivPos (f - now) msPerHour) }) ∧
    (23 * msPerHour < f - now →
      getTimeUntilMessage f now =
        { days := ceilDivPos (f - now) msPerDay
          message := "in " ++ toString (ceilDivPos (f - now) msPerDay) ++ " day" ++
            plural (ceilDivPos (f - now) msPerDay) }) := by
  have h2 : fires2 e now = false := by
    simp [fires2, dLe, hc, not_le.mpr hcn]
  have h3 : fires3 e now = true := by
    simp [fires3, hc, hf, DateVal.truthy, dGt, dLt, hcn, hnf]
  refine ⟨?_, ?_, ?_, ?_⟩
  · unfold getEventPhase
    simp only [hinv, h1, h2, h3, Bool.false_eq_true, if_false,
      eq_self_iff_true, if_true, hf]
    rfl
  · intro hle
    simp only [getTimeUntilMessage]
    rw [if_pos hle]
  · intro hpos h23
    have hne : ¬ (f - now ≤ 0) := by omega
    have hlt : ceilDivPos (f - now) msPerHour < 24 := by
      have h := (ceilDivPos_le_iff (d := f - now) (k := 23)
        (b := msPerHour) (by decide)).mpr h23
      omega
    simp only [getTimeUntilMessage]
    rw [if_neg hne, if_pos hlt]
    rfl
  · intro h23lt
    have hpos : (0 : Int) < f - now := lt_trans (by decide) h23lt
    have hne : ¬ (f - now ≤ 0) := not_le.mpr hpos
    have hge : 24 ≤ ceilDivPos (f - now) msPerHour := by
      refine (le_ceilDivPos_iff (by decide)).mpr ?_
      have h24 : ((24 : Int) - 1) * msPerHour = 23 * msPerHour := by norm_num
      rw [h24]
      exact h23lt
    simp only [getTimeUntilMessage]
    rw [if_neg hne, if_neg (not_lt.mpr hge)]
    rfl

/-- Witness for C2 (amended): five hours before the announcement the
resolver is in the nominations-closed phase with the hour countdown. -/
theorem nominationsClosed_countdown_witness :
    hasInvalidDate { event_year := 2025, nominations_close := .valid 0, finalists_announced := .valid 18000000 } = false ∧
    ({ event_year := 2025, nominations_close := .valid 0, finalists_announced := .valid 18000000 } : EventDetails).nominations_close = .valid 0 ∧
    (0 : Int) < 1 ∧ (1 : Int) < 18000000 ∧
    fires1 { event_year := 2025, nominations_close := .valid 0, finalists_announced := .valid 18000000 } 1 = false ∧
    getEventPhase (some { event_year := 2025, nominations_close := .valid 0, finalists_announced := .valid 18000000 }) 1 = .ok
      { phase := "nominations-closed"
        daysUntilNext := (getTimeUntilMessage 18000000 1).days
        nextMilestone := "Finalists announced " ++ formatDate 18000000
        ctaButton := { text := "Secure Tickets", href := fallbackTicketsURL, variant := "primary" }
        statusMessage := "Finalists announced " ++ (getTimeUntilMessage 18000000 1).message
        isUrgent := decide ((getTimeUntilMessage 18000000 1).days ≤ 1) ||
          strContains (getTimeUntilMessage 18000000 1).message "hour" } ∧
    getTimeUntilMessage 18000000 1 =
      { days := 0
        message := "in " ++ toString (ceilDivPos ((18000000 : Int) - 1) msPerHour) ++ " hour" ++
          plural (ceilDivPos ((18000000 : Int) - 1) msPerHour) } :=
  ⟨rfl, rfl, by decide, by decide, rfl,
    (nominationsClosed_countdown
      { event_year := 2025, nominations_close := .valid 0, finalists_announced := .valid 18000000 }
      1 0 18000000 rfl rfl rfl (by decide) (by decide) rfl).1,
    (nominationsClosed_countdown
      { event_year := 2025, nominations_close := .valid 0, finalists_announced := .valid 18000000 }
      1 0 18000000 rfl rfl rfl (by decide) (by decide) rfl).2.2.1 (by decide) (by decide)⟩

/-- Counterexample to claim C3 as stated: a record whose only milestone
is `nominationsOpen = 2025-01-01T00:00Z`, resolved at exactly that
instant, falls through every branch (the nominations-open branch also
needs `nominationsClose`) and lands in the generic pre-nominations
fallback. -/
theorem nominationsOpen_boundary_cex :
    ({ event_year := 2025, nominations_open := .valid 1735689600000 } : EventDetails).nominations_open =
      .valid 1735689600000 ∧
    getEventPhase (some { event_year := 2025, nominations_open := .valid 1735689600000 })
      1735689600000 = .ok defaultFallback ∧
    defaultFallback.phase = "pre-nominations" ∧
    ("pre-nominations" : String) ≠ "nominations-open" :=
  ⟨rfl, by rfl, rfl, by decide⟩

/-- Claim C3 (amended): whenever both `nominationsOpen` and
`nominationsClose` are present and `nominationsOpen ≤ now ≤
nominationsClose`, resolving yields the nominations-open phase; in
particular the lower boundary `now = nominationsOpen` is inclusive. -/
theorem nominationsOpen_inclusive_lower (e : EventDetails) (now o c : Int)
    (hinv : hasInvalidDate e = false)
    (ho : e.nominations_open = .valid o)
    (hc : e.nominations_close = .valid c)
    (hlo : o ≤ now) (hhi : now ≤ c) :
    ∃ r, getEventPhase (some e) now = .ok r ∧ r.phase = "nominations-open" := by
  have h1 : fires1 e now = false := by
    simp [fires1, dLt, ho, not_lt.mpr hlo]
  have h2 : fires2 e now = true := by
    simp [fires2, ho, hc, DateVal.truthy, dGe, dLe, hlo, hhi]
  unfold getEventPhase
  simp only [hinv, h1, h2, Bool.false_eq_true, if_false, eq_self_iff_true, if_true]
  exact ⟨_, rfl, rfl⟩

/-- Witness for C3 (amended): at `now = nominationsOpen` with a later
close date, the phase is nominations-open. -/
theorem nominationsOpen_inclusive_lower_witness :
    hasInvalidDate { event_year := 2025, nominations_open := .valid 1735689600000, nominations_close := .valid 1735689600001 } = false ∧
    (1735689600000 : Int) ≤ 1735689600000 ∧
    (1735689600000 : Int) ≤ 1735689600001 ∧
    (∃ r, getEventPhase (some { event_year := 2025, nominations_open := .valid 1735689600000, nominations_close := .valid 1735689600001 }) 1735689600000 = .ok r ∧
      r.phase = "nominations-open") :=
  ⟨rfl, by decide, by decide,
    nominationsOpen_inclusive_lower
      { event_year := 2025, nominations_open := .valid 1735689600000, nominations_close := .valid 1735689600001 }
      1735689600000 1735689600000 1735689600001 rfl rfl rfl (by decide) (by decide)⟩

/-- Claim C4: the reused-label window.  With `judgingEnd` and `ceremony`
present, `judgingEnd < now < ceremony`, and no earlier branch of the
ordered chain matching, the resolver reuses the `finalists-announced`
tag with countdown target the ceremony: `nextMilestone` names the
ceremony date and `daysUntilNext` counts toward the ceremony. -/
theorem postJudging_reused_label (e : EventDetails) (now je cer : Int)
    (hinv : hasInvalidDate e = false)
    (hje : e.judging_period_end = .valid je)
    (hcer : e.awards_ceremony = .valid cer)
    (hgt : je < now) (hlt : now < cer)
    (h1 : fires1 e now = false) (h2 : fires2 e now = false)
    (h3 : fires3 e now = false) (h4 : fires4 e now = false)
    (h5 : fires5 e now = false) :
    getEventPhase (some e) now = .ok
      { phase := "finalists-announced"
        daysUntilNext := daysBetween (todayUTC now) cer
        nextMilestone := "Awards ceremony " ++ formatDate cer
        ctaButton := { text := "Secure Tickets", href := e.tickets_portal_url.getD fallbackTicketsURL, variant := "primary" }
        statusMessage := "Awards ceremony in " ++ toString (daysBetween (todayUTC now) cer) ++
          " day" ++ plural (daysBetween (todayUTC now) cer)
        isUrgent := decide (daysBetween (todayUTC now) cer ≤ 7) } := by
  have h6 : fires6 e now = true := by
    simp [fires6, hje, hcer, DateVal.truthy, dGt, dLt, hgt, hlt]
  unfold getEventPhase
  simp only [hinv, h1, h2, h3, h4, h5, h6, Bool.false_eq_true, if_false,
    eq_self_iff_true, if_true, hcer]
  rfl

/-- Witness for C4: between judging end and a ceremony ten days out the
resolver reports the reused finalists-announced tag counting toward the
ceremony. -/
theorem postJudging_reused_label_witness :
    hasInvalidDate { event_year := 2025, judging_period_end := .valid 0, awards_ceremony := .valid 864000000 } = false ∧
    (0 : Int) < 1 ∧ (1 : Int) < 864000000 ∧
    fires1 { event_year := 2025, judging_period_end := .valid 0, awards_ceremony := .valid 864000000 } 1 = false ∧
    fires5 { event_year := 2025, judging_period_end := .valid 0, awards_ceremony := .valid 864000000 } 1 = false ∧
    getEventPhase (some { event_year := 2025, judging_period_end := .valid 0, awards_ceremony := .valid 864000000 }) 1 = .ok
      { phase := "finalists-announced"
        daysUntilNext := daysBetween (todayUTC 1) 864000000
        nextMilestone := "Awards ceremony " ++ formatDate 864000000
        ctaButton := { text := "Secure Tickets", href := fallbackTicketsURL, variant := "primary" }
        statusMessage := "Awards ceremony in " ++ toString (daysBetween (todayUTC 1) 864000000) ++
          " day" ++ plural (daysBetween (todayUTC 1) 864000000)
        isUrgent := decide (daysBetween (todayUTC 1) 864000000 ≤ 7) } :=
  ⟨rfl, by decide, by decide, rfl, rfl,
    postJudging_reused_label
      { event_year := 2025, judging_period_end := .valid 0, awards_ceremony := .valid 864000000 }
      1 0 864000000 rfl rfl rfl (by decide) (by decide) rfl rfl rfl rfl rfl⟩

/-- Counterexample to claim C5 as stated: with out-of-order milestones
(`nominationsOpen` after `ceremony`), a `now` past the ceremony still
matches the pre-nominations branch first, so the phase is not
post-ceremony. -/
theorem post_ceremony_cex :
    ({ event_year := 2025, nominations_open := .valid 200, awards_ceremony := .valid 100 } : EventDetails).awards_ceremony = .valid 100 ∧
    (100 : Int) < 150 ∧
    getEventPhase (some { event_year := 2025, nominations_open := .valid 200, awards_ceremony := .valid 100 }) 150 = .ok
      { phase := "pre-nominations"
        daysUntilNext := 1
        nextMilestone := "Nominations open 01 January 1970"
        ctaButton := { text := "Register Interest", href := "/register-interest/", variant := "primary" }
        statusMessage := "Nominations open in 1 day"
        isUrgent := true } ∧
    ("pre-nominations" : String) ≠ "post-ceremony" :=
  ⟨rfl, by decide, by rfl, by decide⟩

theorem vleB_le {x y : Int} {a b : DateVal} (h : vleB a b = true)
    (ha : a = .valid x) (hb : b = .valid y) : x ≤ y := by
  subst ha
  subst hb
  simpa [vleB] using h

theorem resolve_post_ceremony (e : EventDetails) (now cer : Int)
    (hinv : hasInvalidDate e = false)
    (hord : milestonesOrdered e = true)
    (hcer : e.awards_ceremony = .valid cer)
    (hnow : cer < now) :
    getEventPhase (some e) now = .ok
      { phase := "post-ceremony"
        daysUntilNext := 0
        nextMilestone := "Event completed"
        ctaButton := { text := "View Winners", href := "/winners-and-finalists-" ++ toString e.event_year ++ "/", variant := "primary" }
        statusMessage := "Event completed - view the winners"
        isUrgent := false } := by
  simp only [milestonesOrdered, Bool.and_eq_true] at hord
  have hoc : vleB e.nominations_open e.awards_ceremony = true := by tauto
  have hcc : vleB e.nominations_close e.awards_ceremony = true := by tauto
  have hfc : vleB e.finalists_announced e.awards_ceremony = true := by tauto
  have hjsc : vleB e.judging_period_start e.awards_ceremony = true := by tauto
  have hjec : vleB e.judging_period_end e.awards_ceremony = true := by tauto
  have h1 : fires1 e now = false := by
    cases hno : e.nominations_open with
    | absent => simp [fires1, DateVal.truthy, hno]
    | invalid =>
      exfalso
      simp [hasInvalidDate, hno, DateVal.isInvalid] at hinv
    | valid o =>
      have ho : o ≤ cer := vleB_le hoc hno hcer
      simp [fires1, dLt, hno, not_lt.mpr (le_trans ho hnow.le)]
  have h2 : fires2 e now = false := by
    cases hnc : e.nominations_close with
    | absent => simp [fires2, DateVal.truthy, hnc]
    | invalid =>
      exfalso
      simp [hasInvalidDate, hnc, DateVal.isInvalid] at hinv
    | valid cl =>
      have hc : cl ≤ cer := vleB_le hcc hnc hcer
      simp [fires2, dLe, hnc, not_le.mpr (lt_of_le_of_lt hc hnow)]
  have h3 : fires3 e now = false := by
    cases hfa : e.finalists_announced with
    | absent => simp [fires3, DateVal.truthy, hfa]
    | invalid =>
      exfalso
      simp [hasInvalidDate, hfa, DateVal.isInvalid] at hinv
    | valid fa =>
      have hf : fa ≤ cer := vleB_le hfc hfa hcer
      simp [fires3, dLt, hfa, not_lt.mpr (le_trans hf hnow.le)]
  have h4 : fires4 e now = false := by
    cases hjs : e.judging_period_start with
    | absent => simp [fires4, DateVal.truthy, hjs]
    | invalid =>
      exfalso
      simp [hasInvalidDate, hjs, DateVal.isInvalid] at hinv
    | valid js =>
      have hj : js ≤ cer := vleB_le hjsc hjs hcer
      simp [fires4, dLt, hjs, not_lt.mpr (le_trans hj hnow.le)]
  have h5 : fires5 e now = false := by
    cases hje : e.judging_period_end with
    | absent => simp [fires5, DateVal.truthy, hje]
    | invalid =>
      exfalso
      simp [hasInvalidDate, hje, DateVal.isInvalid] at hinv
    | valid je =>
      have hj : je ≤ cer := vleB_le hjec hje hcer
      simp [fires5, dLe, hje, not_le.mpr (lt_of_le_of_lt hj hnow)]
  have h6 : fires6 e now = false := by
    simp [fires6, dLt, hcer, not_lt.mpr hnow.le]
  have h7 : fires7 e now = true := by
    simp [fires7, DateVal.truthy, hcer, dGt, hnow]
  unfold getEventPhase
  simp only [hinv, h1, h2, h3, h4, h5, h6, h7, Bool.false_eq_true, if_false,
    eq_self_iff_true, if_true]

/-- Claim C5 (amended): for every record whose present instants are
non-decreasing in the canonical milestone order, with a valid ceremony
instant, once `now > ceremony` the phase is post-ceremony, and it stays
post-ceremony for every later `now` (monotonic, never reverts). -/
theorem post_ceremony_terminal (e : EventDetails) (now cer : Int)
    (hinv : hasInvalidDate e = false)
    (hord : milestonesOrdered e = true)
    (hcer : e.awards_ceremony = .valid cer)
    (hnow : cer < now) :
    (∃ r, getEventPhase (some e) now = .ok r ∧ r.phase = "post-ceremony") ∧
    ∀ later, now < later →
      ∃ r, getEventPhase (some e) later = .ok r ∧ r.phase = "post-ceremony" := by
  refine ⟨⟨_, resolve_post_ceremony e now cer hinv hord hcer hnow, rfl⟩, ?_⟩
  intro later hl
  exact ⟨_, resolve_post_ceremony e later cer hinv hord hcer (lt_trans hnow hl), rfl⟩

/-- Witness for C5 (amended): a fully populated, ordered record one
instant after the ceremony is post-ceremony. -/
theorem post_ceremony_terminal_witness :
    hasInvalidDate { event_year := 2025, nominations_open := .valid 0, nominations_close := .valid 1, finalists_announced := .valid 2, judging_period_start := .valid 3, judging_period_end := .valid 4, awards_ceremony := .valid 5 } = false ∧
    milestonesOrdered { event_year := 2025, nominations_open := .valid 0, nominations_close := .valid 1, finalists_announced := .valid 2, judging_period_start := .valid 3, judging_period_end := .valid 4, awards_ceremony := .valid 5 } = true ∧
    (5 : Int) < 6 ∧
    ((∃ r, getEventPhase (some { event_year := 2025, nominations_open := .valid 0, nominations_close := .valid 1, finalists_announced := .valid 2, judging_period_start := .valid 3, judging_period_end := .valid 4, awards_ceremony := .valid 5 }) 6 = .ok r ∧ r.phase = "post-ceremony") ∧
     ∀ later, (6 : Int) < later →
       ∃ r, getEventPhase (some { event_year := 2025, nominations_open := .valid 0, nominations_close := .valid 1, finalists_announced := .valid 2, judging_period_start := .valid 3, judging_period_end := .valid 4, awards_ceremony := .valid 5 }) later = .ok r ∧ r.phase = "post-ceremony") :=
  ⟨rfl, rfl, by decide,
    post_ceremony_terminal
      { event_year := 2025, nominations_open := .valid 0, nominations_close := .valid 1, finalists_announced := .valid 2, judging_period_start := .valid 3, judging_period_end := .valid 4, awards_ceremony := .valid 5 }
      6 5 rfl rfl rfl (by decide)⟩

/-- Counterexample to claim C6 as stated: the post-ceremony result has
`daysUntilNext = 0`, and 0 is at most 7, yet `isUrgent` is false — the
day-threshold rule does not govern the phases whose countdown is pinned
to zero. -/
theorem urgency_rule_cex :
    getEventPhase (some { event_year := 2025, awards_ceremony := .valid 0 }) 1 = .ok
      { phase := "post-ceremony"
        daysUntilNext := 0
        nextMilestone := "Event completed"
        ctaButton := { text := "View Winners", href := "/winners-and-finalists-2025/", variant := "primary" }
        statusMessage := "Event completed - view the winners"
        isUrgent := false } ∧
    decide ((0 : Int) ≤ 7) = true ∧
    (false : Bool) ≠ decide ((0 : Int) ≤ 7) :=
  ⟨by rfl, by decide, by decide⟩

/-- Claim C6 (amended): `isUrgent = (daysUntilNext ≤ 7)` in the
pre-nominations countdown, nominations-open and judging-end-to-ceremony
branches; in the nominations-closed branch
`isUrgent = (days ≤ 1 or the countdown message mentions hours)`; the
finalists-to-judging window and the judging period are always
non-urgent; and the results whose countdown is pinned to zero
(post-ceremony, the no-record fallback and the no-match fallback) have
`isUrgent = false` rather than following the day-threshold rule. -/
theorem urgency_rule (e : EventDetails) (now : Int) (r : EventPhase)
    (hinv : hasInvalidDate e = false)
    (hr : getEventPhase (some e) now = .ok r) :
    (fires1 e now = true → r.isUrgent = decide (r.daysUntilNext ≤ 7)) ∧
    (fires1 e now = false → fires2 e now = true →
      r.isUrgent = decide (r.daysUntilNext ≤ 7)) ∧
    (fires1 e now = false → fires2 e now = false → fires3 e now = true →
      ∀ f, e.finalists_announced = .valid f →
        r.daysUntilNext = (getTimeUntilMessage f now).days ∧
        r.isUrgent = (decide ((getTimeUntilMessage f now).days ≤ 1) ||
          strContains (getTimeUntilMessage f now).message "hour")) ∧
    (fires1 e now = false → fires2 e now = false → fires3 e now = false →
      fires4 e now = true → r.isUrgent = false) ∧
    (fires1 e now = false → fires2 e now = false → fires3 e now = false →
      fires4 e now = false → fires5 e now = true → r.isUrgent = false) ∧
    (fires1 e now = false → fires2 e now = false → fires3 e now = false →
      fires4 e now = false → fires5 e now = false → fires6 e now = true →
      r.isUrgent = decide (r.daysUntilNext ≤ 7)) ∧
    (fires1 e now = false → fires2 e now = false → fires3 e now = false →
      fires4 e now = false → fires5 e now = false → fires6 e now = false →
      fires7 e now = true → r.isUrgent = false ∧ r.daysUntilNext = 0) ∧
    (fires1 e now = false → fires2 e now = false → fires3 e now = false →
      fires4 e now = false → fires5 e now = false → fires6 e now = false →
      fires7 e now = false → r.isUrgent = false ∧ r.daysUntilNext = 0) ∧
    (getEventPhase none now = .ok noEventFallback ∧
      noEventFallback.isUrgent = false ∧ noEventFallback.daysUntilNext = 0) := by
  refine ⟨?_, ?_, ?_, ?_, ?_, ?_, ?_, ?_, rfl, rfl, rfl⟩
  · intro g1
    unfold getEventPhase at hr
    simp only [hinv, g1, Bool.false_eq_true, if_false, eq_self_iff_true, if_true] at hr
    injection hr with h
    subst h
    rfl
  · intro g1 g2
    unfold getEventPhase at hr
    simp only [hinv, g1, g2, Bool.false_eq_true, if_false, eq_self_iff_true, if_true] at hr
    injection hr with h
    subst h
    rfl
  · intro g1 g2 g3 f hf
    unfold getEventPhase at hr
    simp only [hinv, g1, g2, g3, Bool.false_eq_true, if_false, eq_self_iff_true, if_true] at hr
    injection hr with h
    subst h
    rw [hf]
    exact ⟨rfl, rfl⟩
  · intro g1 g2 g3 g4
    unfold getEventPhase at hr
    simp only [hinv, g1, g2, g3, g4, Bool.false_eq_true, if_false, eq_self_iff_true, if_true] at hr
    injection hr with h
    subst h
    rfl
  · intro g1 g2 g3 g4 g5
    unfold getEventPhase at hr
    simp only [hinv, g1, g2, g3, g4, g5, Bool.false_eq_true, if_false, eq_self_iff_true, if_true] at hr
    injection hr with h
    subst h
    rfl
  · intro g1 g2 g3 g4 g5 g6
    unfold getEventPhase at hr
    simp only [hinv, g1, g2, g3, g4, g5, g6, Bool.false_eq_true, if_false, eq_self_iff_true, if_true] at hr
    injection hr with h
    subst h
    rfl
  · intro g1 g2 g3 g4 g5 g6 g7
    unfold getEventPhase at hr
    simp only [hinv, g1, g2, g3, g4, g5, g6, g7, Bool.false_eq_true, if_false, eq_self_iff_true, if_true] at hr
    injection hr with h
    subst h
    exact ⟨rfl, rfl⟩
  · intro g1 g2 g3 g4 g5 g6 g7
    unfold getEventPhase at hr
    simp only [hinv, g1, g2, g3, g4, g5, g6, g7, Bool.false_eq_true, if_false, eq_self_iff_true, if_true] at hr
    injection hr with h
    subst h
    exact ⟨rfl, rfl⟩

/-- Witness for C6 (amended): in the pre-nominations branch one day out
the day-threshold rule applies and flags urgency. -/
theorem urgency_rule_witness :
    hasInvalidDate { event_year := 2025, nominations_open := .valid 86400000 } = false ∧
    getEventPhase (some { event_year := 2025, nominations_open := .valid 86400000 }) 0 = .ok
      { phase := "pre-nominations"
        daysUntilNext := 1
        nextMilestone := "Nominations open 02 January 1970"
        ctaButton := { text := "Register Interest", href := "/register-interest/", variant := "primary" }
        statusMessage := "Nominations open in 1 day"
        isUrgent := true } ∧
    fires1 { event_year := 2025, nominations_open := .valid 86400000 } 0 = true ∧
    (true : Bool) = decide ((1 : Int) ≤ 7) :=
  ⟨rfl, by rfl, rfl,
    (urgency_rule { event_year := 2025, nominations_open := .valid 86400000 } 0
      { phase := "pre-nominations"
        daysUntilNext := 1
        nextMilestone := "Nominations open 02 January 1970"
        ctaButton := { text := "Register Interest", href := "/register-interest/", variant := "primary" }
        statusMessage := "Nominations open in 1 day"
        isUrgent := true }
      rfl (by rfl)).1 rfl⟩

/-- Claim C7 states that malformed date values are treated as absent
and never thrown.  The code contradicts this: the branch comparisons do
treat a NaN date exactly like an absent one (every comparison with NaN
is false), but before any branch runs the debug snapshot calls
`toISOString` on each non-null parsed date, and `toISOString` throws a
RangeError on an Invalid Date.  So a record with any present
unparseable date makes the resolver throw, where the same record with
the field absent resolves normally. -/
theorem malformed_date_throws :
    getEventPhase (some { event_year := 2025, nominations_open := .invalid }) 0 =
      .error "RangeError: Invalid time value" ∧
    getEventPhase (some { event_year := 2025 }) 0 = .ok defaultFallback :=
  ⟨by rfl, by rfl⟩

/-- Claim C8: the hero context replaces the CTA text with
`Submit Your Nomination` exactly in the nominations-open phase, keeping
href and variant, and passes the default CTA through unchanged in every
other phase. -/
theorem heroCTA_override (r : EventPhase) :
    getCTAButton r .hero =
      if r.phase = "nominations-open" then
        { text := "Submit Your Nomination"
          href := r.ctaButton.href
          variant := r.ctaButton.variant }
      else r.ctaButton := by
  by_cases h : r.phase = "nominations-open" <;> simp [getCTAButton, h]

/-- Claim C9: the countdown formatter returns `none` exactly when
`daysUntilNext` is zero, and otherwise carries `daysUntilNext`,
`nextMilestone` and `isUrgent` through unchanged. -/
theorem countdown_none_iff_zero (r : EventPhase) :
    (getCountdownInfo r = none ↔ r.daysUntilNext = 0) ∧
    (∀ ci, getCountdownInfo r = some ci →
      ci.days = r.daysUntilNext ∧ ci.message = r.nextMilestone ∧
        ci.isUrgent = r.isUrgent) := by
  unfold getCountdownInfo
  constructor
  · split
    · simp_all
    · simp_all
  · intro ci hci
    split at hci
    · exact absurd hci (by simp)
    · cases hci
      exact ⟨rfl, rfl, rfl⟩

/-- Witness for C9: a record three days out is carried through. -/
theorem countdown_none_iff_zero_witness :
    getCountdownInfo
        { phase := "nominations-open", daysUntilNext := 3
          nextMilestone := "Nominations close 31 January 1970"
          ctaButton := { text := "Nominate Now", href := fallbackNominationURL, variant := "primary" }
          statusMessage := "Nominations close in 3 days", isUrgent := true } =
      some { days := 3, message := "Nominations close 31 January 1970", isUrgent := true } ∧
    (getCountdownInfo
        { phase := "nominations-open", daysUntilNext := 3
          nextMilestone := "Nominations close 31 January 1970"
          ctaButton := { text := "Nominate Now", href := fallbackNominationURL, variant := "primary" }
          statusMessage := "Nominations close in 3 days", isUrgent := true } = none ↔
      (3 : Int) = 0) :=
  ⟨rfl, (countdown_none_iff_zero _).1⟩

/-- Claim C10: when no branch of the ordered chain matches, resolving a
sparse or out-of-order record is indistinguishable from resolving with
no active event at all (debug metadata aside), and both give the
generic pre-nominations fallback. -/
theorem sparse_record_fallback (e : EventDetails) (now : Int)
    (hinv : hasInvalidDate e = false)
    (h1 : fires1 e now = false) (h2 : fires2 e now = false)
    (h3 : fires3 e now = false) (h4 : fires4 e now = false)
    (h5 : fires5 e now = false) (h6 : fires6 e now = false)
    (h7 : fires7 e now = false) :
    getEventPhase (some e) now = getEventPhase none now ∧
    getEventPhase none now = .ok
      { phase := "pre-nominations"
        daysUntilNext := 0
        nextMilestone := "Event details coming soon"
        ctaButton := { text := "Register Interest", href := "/register-interest/", variant := "primary" }
        statusMessage := "Event details are being finalized"
        isUrgent := false } := by
  constructor
  · simp only [getEventPhase, hinv, h1, h2, h3, h4, h5, h6, h7,
      Bool.false_eq_true, if_false]
    rfl
  · rfl

/-- Witness for C10: the all-absent record resolves like no record. -/
theorem sparse_record_fallback_witness :
    hasInvalidDate { event_year := 2025 } = false ∧
    fires1 { event_year := 2025 } 0 = false ∧
    fires2 { event_year := 2025 } 0 = false ∧
    fires3 { event_year := 2025 } 0 = false ∧
    fires4 { event_year := 2025 } 0 = false ∧
    fires5 { event_year := 2025 } 0 = false ∧
    fires6 { event_year := 2025 } 0 = false ∧
    fires7 { event_year := 2025 } 0 = false ∧
    (getEventPhase (some { event_year := 2025 }) 0 = getEventPhase none 0 ∧
     getEventPhase none 0 = .ok
      { phase := "pre-nominations"
        daysUntilNext := 0
        nextMilestone := "Event details coming soon"
        ctaButton := { text := "Register Interest", href := "/register-interest/", variant := "primary" }
        statusMessage := "Event details are being finalized"
        isUrgent := false }) :=
  ⟨rfl, rfl, rfl, rfl, rfl, rfl, rfl, rfl,
    sparse_record_fallback { event_year := 2025 } 0 rfl rfl rfl rfl rfl rfl rfl rfl⟩
